import Mathlib

/-!
Shallow embedding of `aws_session_handler/awssessionhandler.py`
(class `AwsSessionHandler`), covering the token-lifecycle state machine:
the two-tier token cache (long-lived MFA session token, short-lived
assumed-role token), the per-call validation/refresh logic of
`_get_session`, the selector mutation `set`, the guarded wrappers
`client`/`resource`, the unguarded `get_session`, the cache-file write
`_write_cache_file`, and the cache preload block of `__init__`.

Modelling conventions:
* Python `None`-able string attributes (`self._profile`, `self._region`,
  token `profile`/`region` fields) are `Option String`; Python truthiness
  of such a value (`if profile:`) is `optFalsy` (falsy iff `None` or `""`).
* Token dicts are structures with the same field names as the Python dict
  keys.  The `expire` field, an ISO-8601 timestamp string parsed with
  `datetime.strptime` at each check, is modelled as an integer UTC
  timestamp in seconds; the string round-trip is the identity on the
  stamps the handler itself produces, so the comparisons `expire <= now`
  are modelled directly on the integers.
* The external collaborators (botocore config lookup, `input()`,
  `sts.get_session_token`, `sts.assume_role`, the clock) are an explicit
  environment `Env` of pure functions.
* A `_get_session` call returns a `CallResult`: the updated handler state,
  the number of MFA prompts (`input()` calls), the number of
  `get_session_token` and `assume_role` service calls, and the JSON value
  written to the cache file (`none` when no write happened).
* The JSON cache file is a small `Json` type; `json.dump`/`json.load` of a
  two-key dict of string/int/null-valued dicts is faithful at this level
  (JSON booleans and arrays, which the handler never writes, are outside
  the modelled grammar).  A cache file whose bytes do not parse as JSON is
  `CacheFileState.corrupt` (in the source, `json.load` raises there and
  `__init__` has no handler), and parseable non-object content follows the
  source's `'key' in cache_tokens` semantics: `TypeError` on `null` and
  numbers, substring-test-then-`TypeError` on strings.  The preload keeps
  whatever raw value an object carries under a key (`loadCacheRaw`);
  `loadCacheTokens` is its typed projection, exact on handler-written
  content.
-/

/-- Json values, as far as the cache file uses them: the file holds an
object of two keys whose values are objects of string, integer (the
modelled timestamp) and null fields. -/
inductive Json where
  | null : Json
  | str : String → Json
  | int : Int → Json
  | obj : List (String × Json) → Json

/-- Association-list lookup on JSON object fields, the model of
`'key' in dict` followed by `dict['key']`. -/
def assocFind : List (String × Json) → String → Option Json
  | [], _ => none
  | (k, v) :: rest, key => if k = key then some v else assocFind rest key

/-- Prefix test on character lists, the base of the substring test. -/
def listStartsWith : List Char → List Char → Bool
  | _, [] => true
  | [], _ :: _ => false
  | a :: as, b :: bs => a == b && listStartsWith as bs

/-- Infix (substring) test on character lists. -/
def listHasInfix : List Char → List Char → Bool
  | [], pat => listStartsWith [] pat
  | a :: rest, pat => listStartsWith (a :: rest) pat || listHasInfix rest pat

/-- Substring test: `strContains s pat` models Python's `pat in s` when
`s` is a string. -/
def strContains (s pat : String) : Bool :=
  listHasInfix s.toList pat.toList

/-- Long-lived MFA session token: the dict built at
`awssessionhandler.py` lines 166-173. -/
structure LongToken where
  aws_access_key_id : String
  aws_secret_access_key : String
  aws_session_token : String
  expire : Int
  source_profile : String
  region : Option String
deriving DecidableEq

/-- Short-lived assumed-role token: the dict built at
`awssessionhandler.py` lines 190-197. -/
structure ShortToken where
  aws_access_key_id : String
  aws_secret_access_key : String
  aws_session_token : String
  expire : Int
  profile : Option String
  region : Option String
deriving DecidableEq

/-- Encoding of an optional string attribute into JSON (`None` dumps as
`null`). -/
def jOfOptStr : Option String → Json
  | none => .null
  | some s => .str s

/-- JSON form of a long token, field order as in the source dict literal. -/
def encodeLong (t : LongToken) : Json :=
  .obj [("aws_access_key_id", .str t.aws_access_key_id),
        ("aws_secret_access_key", .str t.aws_secret_access_key),
        ("aws_session_token", .str t.aws_session_token),
        ("expire", .int t.expire),
        ("source_profile", .str t.source_profile),
        ("region", jOfOptStr t.region)]

/-- JSON form of a short token, field order as in the source dict literal. -/
def encodeShort (t : ShortToken) : Json :=
  .obj [("aws_access_key_id", .str t.aws_access_key_id),
        ("aws_secret_access_key", .str t.aws_secret_access_key),
        ("aws_session_token", .str t.aws_session_token),
        ("expire", .int t.expire),
        ("profile", jOfOptStr t.profile),
        ("region", jOfOptStr t.region)]

/-- JSON form of a possibly-absent long token (`None` dumps as `null`). -/
def encodeOptLong : Option LongToken → Json
  | none => .null
  | some t => encodeLong t

/-- JSON form of a possibly-absent short token (`None` dumps as `null`). -/
def encodeOptShort : Option ShortToken → Json
  | none => .null
  | some t => encodeShort t

/-- Content `json.dump`ed by `_write_cache_file` (lines 214-220): one
object holding both fields. -/
def writeCacheJson (l : Option LongToken) (s : Option ShortToken) : Json :=
  .obj [("long_session_token", encodeOptLong l),
        ("short_session_token", encodeOptShort s)]

/-- Reading a string field back from JSON. -/
def jStr : Option Json → Option String
  | some (.str s) => some s
  | _ => none

/-- Reading an integer (timestamp) field back from JSON. -/
def jInt : Option Json → Option Int
  | some (.int n) => some n
  | _ => none

/-- Reading an optional-string field back from JSON (`null` loads as
`None`). -/
def jOptStr : Option Json → Option (Option String)
  | some .null => some none
  | some (.str s) => some (some s)
  | _ => none

/-- Long token reconstructed from its JSON form.  In the source the raw
dict is kept as-is; here a JSON value that is `null` or lacks the
handler-written shape yields `none` ("no cached token"), matching how the
handler-written cache behaves. -/
def decodeLong : Json → Option LongToken
  | .obj fields => do
    let ak ← jStr (assocFind fields "aws_access_key_id")
    let sk ← jStr (assocFind fields "aws_secret_access_key")
    let tk ← jStr (assocFind fields "aws_session_token")
    let ex ← jInt (assocFind fields "expire")
    let sp ← jStr (assocFind fields "source_profile")
    let rg ← jOptStr (assocFind fields "region")
    some { aws_access_key_id := ak, aws_secret_access_key := sk,
           aws_session_token := tk, expire := ex,
           source_profile := sp, region := rg }
  | _ => none

/-- Short token reconstructed from its JSON form; see `decodeLong`. -/
def decodeShort : Json → Option ShortToken
  | .obj fields => do
    let ak ← jStr (assocFind fields "aws_access_key_id")
    let sk ← jStr (assocFind fields "aws_secret_access_key")
    let tk ← jStr (assocFind fields "aws_session_token")
    let ex ← jInt (assocFind fields "expire")
    let pf ← jOptStr (assocFind fields "profile")
    let rg ← jOptStr (assocFind fields "region")
    some { aws_access_key_id := ak, aws_secret_access_key := sk,
           aws_session_token := tk, expire := ex,
           profile := pf, region := rg }
  | _ => none

/-- Observable state of the cache file at construction time:
missing (`os.path.exists` false), present but failing the
`os.access(..., os.W_OK)` check, present and parsing to a JSON value, or
present but not parseable as JSON (where `json.load` raises). -/
inductive CacheFileState where
  | absent : CacheFileState
  | inaccessible : CacheFileState
  | corrupt : CacheFileState
  | content : Json → CacheFileState

/-- Cache preload block of `__init__` (lines 62-71), run when disk
caching is enabled, at the raw-value level: a missing or inaccessible
file is skipped; an unparseable file propagates the `json.load`
exception out of the constructor; parsed content then meets
`'long_session_token' in cache_tokens` followed by raw indexing, so
`null` or a number raises `TypeError` (`in` on a non-container),
a string containing either key as a substring raises `TypeError` at the
string indexing, a string containing neither key passes both `in` tests
negatively, and an object contributes whichever of the two keys it
carries — as the raw JSON value, whatever its shape. -/
def loadCacheRaw : CacheFileState → Except String (Option Json × Option Json)
  | .absent => .ok (none, none)
  | .inaccessible => .ok (none, none)
  | .corrupt => .error "json.decoder.JSONDecodeError: Expecting value"
  | .content .null => .error "TypeError: argument of type NoneType is not iterable"
  | .content (.int _) => .error "TypeError: argument of type int is not iterable"
  | .content (.str s) =>
    if strContains s "long_session_token" || strContains s "short_session_token" then
      .error "TypeError: string indices must be integers"
    else
      .ok (none, none)
  | .content (.obj fields) =>
    .ok (assocFind fields "long_session_token", assocFind fields "short_session_token")

/-- Typed view of the constructor's preload: the raw slots of
`loadCacheRaw`, decoded into token structures.  Exceptions propagate
exactly, and on handler-written content the decoding is exact
(`decodeLong_encodeLong`, `decodeShort_encodeShort`); for a foreign
object value that is not handler-shaped the source keeps the raw value
in memory (see `loadCacheRaw`) and only fails at its first use inside
`_get_session`, which this typed projection renders as `none`. -/
def loadCacheTokens (fs : CacheFileState) :
    Except String (Option LongToken × Option ShortToken) :=
  match loadCacheRaw fs with
  | .error e => .error e
  | .ok (lraw, sraw) =>
    .ok ((match lraw with
          | none => none
          | some v => decodeLong v),
         (match sraw with
          | none => none
          | some v => decodeShort v))

/-- Success test for an `Except` result, the model of "the call returned
instead of raising". -/
def exceptOk {ε α : Type} : Except ε α → Bool
  | .ok _ => true
  | .error _ => false

/-- Scoped configuration returned by
`botocore session.get_scoped_config()` for the selected profile: the keys
`_get_session` consults.  A key that is present (even with an empty-string
value) is `some`. -/
structure ScopedConfig where
  region : Option String
  role_arn : Option String
  mfa_serial : Option String
  source_profile : Option String

/-- Authenticated session handle built at the end of `_get_session`:
either a `boto3.Session` from the short token's credentials and the
resolved region, or the default-chain `boto3.Session(botocore_session=...)`
scoped to the selected profile. -/
inductive Session where
  | fromShortToken (aws_access_key_id aws_secret_access_key aws_session_token : String)
      (region : Option String) : Session
  | defaultChain (profile : Option String) : Session
deriving DecidableEq

/-- Mutable state of an `AwsSessionHandler` instance: the attributes the
token-lifecycle logic reads and writes. -/
structure Handler where
  profile : Option String
  region : Option String
  long_session_token : Option LongToken
  short_session_token : Option ShortToken
  disk_cache_disable : Bool
  long_session_duration : Int
  short_session_duration : Int
  session : Option Session
deriving DecidableEq

/-- Credential bundle returned by the token service
(`get_session_token(...)['Credentials']` or
`assume_role(...)['Credentials']`); `expiration` is the modelled
`Expiration` timestamp. -/
structure Credentials where
  accessKeyId : String
  secretAccessKey : String
  sessionToken : String
  expiration : Int
deriving DecidableEq

/-- External collaborators of one `_get_session` call, as pure functions:
the config store (profile selector to scoped config), the clock, the
interactive MFA input, and the two STS operations keyed by the request
parameters the source passes. -/
structure Env where
  configStore : Option String → ScopedConfig
  now : Int
  mfaInput : String
  stsGetSessionToken : Int → String → String → Credentials
  stsAssumeRole : String → String → String → String → Int → Credentials

/-- Python truthiness test of an optional string attribute:
`not x` is true exactly for `None` and `""`. -/
def optFalsy : Option String → Bool
  | none => true
  | some s => s.isEmpty

/-- Model of `_config_lookup` (lines 120-127): fetch the scoped config of
the selected profile and, when the config carries a region and the
handler's region selector is falsy, adopt the config's region. -/
def configLookup (store : Option String → ScopedConfig) (h : Handler) :
    Handler × ScopedConfig :=
  let cfg := store h.profile
  if cfg.region.isSome && optFalsy h.region then
    ({ h with region := cfg.region }, cfg)
  else
    (h, cfg)

/-- Long-token validation step (lines 136-147): an expired long token
invalidates both tiers and sets `token_changed`; a `source_profile`
mismatch invalidates both tiers without touching `token_changed`.
Returns (long token, short token, `token_changed`). -/
def validateLong (configSource : String) (nowMargin : Int)
    (long : Option LongToken) (short : Option ShortToken) :
    Option LongToken × Option ShortToken × Bool :=
  match long with
  | none => (none, short, false)
  | some lt =>
    if lt.expire ≤ nowMargin then (none, none, true)
    else if lt.source_profile ≠ configSource then (none, none, false)
    else (some lt, short, false)

/-- Short-token validation step (lines 149-156): expiry or a profile
mismatch invalidates the short token only. -/
def validateShort (profile : Option String) (nowMargin : Int)
    (short : Option ShortToken) : Option ShortToken :=
  match short with
  | none => none
  | some st =>
    if st.expire ≤ nowMargin then none
    else if st.profile ≠ profile then none
    else some st

/-- Long-token refresh step (lines 158-174): when no long token survived
validation, prompt for an MFA code and call `get_session_token`, building
the new long token from the returned credentials, the config's
`source_profile` and the resolved region.  Returns the long token in use
and the number of MFA prompts / `get_session_token` calls (0 or 1). -/
def refreshLongStep (env : Env) (mfaSerial sourceProfile : String) (h : Handler)
    (long : Option LongToken) : LongToken × Nat :=
  match long with
  | some lt => (lt, 0)
  | none =>
    let cred := env.stsGetSessionToken h.long_session_duration mfaSerial env.mfaInput
    ({ aws_access_key_id := cred.accessKeyId
       aws_secret_access_key := cred.secretAccessKey
       aws_session_token := cred.sessionToken
       expire := cred.expiration
       source_profile := sourceProfile
       region := h.region }, 1)

/-- Short-token refresh step (lines 176-197): when no short token
survived validation, call `assume_role` with the long token's credentials,
building the new short token from the returned credentials, the current
profile selector and the resolved region; this sets `token_changed`.
Returns the short token in use and whether it was refreshed. -/
def refreshShortStep (env : Env) (roleArn : String) (h : Handler) (long : LongToken)
    (short : Option ShortToken) : ShortToken × Bool :=
  match short with
  | some st => (st, false)
  | none =>
    let cred := env.stsAssumeRole long.aws_access_key_id long.aws_secret_access_key
      long.aws_session_token roleArn h.short_session_duration
    ({ aws_access_key_id := cred.accessKeyId
       aws_secret_access_key := cred.secretAccessKey
       aws_session_token := cred.sessionToken
       expire := cred.expiration
       profile := h.profile
       region := h.region }, true)

/-- Content written by `_write_cache_file` (lines 214-220): nothing when
disk caching is disabled, otherwise one overwrite with both token fields
of the current state. -/
def writeCacheFileContent (h : Handler) : Option Json :=
  if h.disk_cache_disable then none
  else some (writeCacheJson h.long_session_token h.short_session_token)

/-- Observable outcome of one `_get_session` call: the updated handler
and the external effects (MFA prompts, STS calls, cache-file write). -/
structure CallResult where
  handler : Handler
  mfaPrompts : Nat
  getSessionTokenCalls : Nat
  assumeRoleCalls : Nat
  cacheWrite : Option Json

/-- Role-assumption branch of `_get_session` (lines 130-208), taken when
the scoped config carries `role_arn`, `mfa_serial` and `source_profile`:
validate both tiers against `now + 10s`, refresh in dependency order,
build the session from the short token, and write the cache file when
`token_changed`. -/
def rolePathCall (env : Env) (h : Handler)
    (roleArn mfaSerial sourceProfile : String) : CallResult :=
  let nowMargin := env.now + 10
  let v := validateLong sourceProfile nowMargin h.long_session_token h.short_session_token
  let short2 := validateShort h.profile nowMargin v.2.1
  let longRes := refreshLongStep env mfaSerial sourceProfile h v.1
  let shortRes := refreshShortStep env roleArn h longRes.1 short2
  let token_changed := v.2.2 || shortRes.2
  let h' := { h with
    long_session_token := some longRes.1
    short_session_token := some shortRes.1
    session := some (Session.fromShortToken shortRes.1.aws_access_key_id
      shortRes.1.aws_secret_access_key shortRes.1.aws_session_token h.region) }
  { handler := h'
    mfaPrompts := longRes.2
    getSessionTokenCalls := longRes.2
    assumeRoleCalls := if shortRes.2 then 1 else 0
    cacheWrite := if token_changed then writeCacheFileContent h' else none }

/-- No-role-assumption branch of `_get_session` (lines 210-212): build
the session from the default credential chain of the selected profile; no
prompts, no STS calls, no cache write. -/
def defaultPathCall (h : Handler) : CallResult :=
  { handler := { h with session := some (Session.defaultChain h.profile) }
    mfaPrompts := 0
    getSessionTokenCalls := 0
    assumeRoleCalls := 0
    cacheWrite := none }

/-- Capability detection (line 130):
`all(key in self._config for key in ('role_arn', 'mfa_serial', 'source_profile'))`. -/
def roleAssumptionRequired (cfg : ScopedConfig) : Bool :=
  cfg.role_arn.isSome && cfg.mfa_serial.isSome && cfg.source_profile.isSome

/-- Model of `_get_session` (lines 117-212): re-resolve the config, then
branch on capability detection. -/
def getSessionCore (env : Env) (h : Handler) : CallResult :=
  let p := configLookup env.configStore h
  match p.2.role_arn, p.2.mfa_serial, p.2.source_profile with
  | some roleArn, some mfaSerial, some sourceProfile =>
    rolePathCall env p.1 roleArn mfaSerial sourceProfile
  | _, _, _ => defaultPathCall p.1

/-- Model of the public `get_session` (lines 112-114): it calls
`_get_session` directly, with no guard on the selectors, and cannot
raise the missing-selector error. -/
def get_session (env : Env) (h : Handler) : Except String CallResult :=
  .ok (getSessionCore env h)

/-- Model of `client` (lines 84-96): raise when both selectors are falsy,
otherwise run `_get_session`.  The delegation to `boto3`'s client factory
is outside the modelled core. -/
def client (env : Env) (h : Handler) : Except String CallResult :=
  if optFalsy h.profile && optFalsy h.region then
    .error "ERROR: missing region and profile"
  else
    .ok (getSessionCore env h)

/-- Model of `resource` (lines 98-110): same guard and delegation as
`client`. -/
def resource (env : Env) (h : Handler) : Except String CallResult :=
  if optFalsy h.profile && optFalsy h.region then
    .error "ERROR: missing region and profile"
  else
    .ok (getSessionCore env h)

/-- Model of `set` (lines 73-82): a truthy argument replaces the
corresponding selector, a falsy one (`None` or `""`) leaves it
unchanged. -/
def setSelectors (h : Handler) (profile region : Option String) : Handler :=
  let h1 := if optFalsy profile then h else { h with profile := profile }
  if optFalsy region then h1 else { h1 with region := region }

/-- Concrete scoped config of the spec's "dev" scenario: all three
role-assumption keys present. -/
def cfgDev : ScopedConfig :=
  { region := some "eu-west-1"
    role_arn := some "arn:aws:iam::123:role/X"
    mfa_serial := some "arn:aws:iam::123:mfa/user"
    source_profile := some "base" }

/-- Concrete scoped config lacking every role-assumption key. -/
def cfgPlain : ScopedConfig :=
  { region := some "eu-west-1"
    role_arn := none
    mfa_serial := none
    source_profile := none }

/-- Concrete environment in which every profile resolves to `cfgDev`;
clock at 1000, deterministic token service. -/
def envDev : Env :=
  { configStore := fun _ => cfgDev
    now := 1000
    mfaInput := "123456"
    stsGetSessionToken := fun d _serial _code =>
      { accessKeyId := "AKLONG", secretAccessKey := "SKLONG",
        sessionToken := "STLONG", expiration := 1000 + d }
    stsAssumeRole := fun _ak _sk _st _arn d =>
      { accessKeyId := "AKSHORT", secretAccessKey := "SKSHORT",
        sessionToken := "STSHORT", expiration := 1000 + d } }

/-- Concrete environment in which every profile resolves to `cfgPlain`. -/
def envPlain : Env :=
  { envDev with configStore := fun _ => cfgPlain }

/-- Concrete cached long token for profile source `base`, expiring well
past `envDev`'s clock. -/
def ltBase : LongToken :=
  { aws_access_key_id := "AKIALONG", aws_secret_access_key := "SECLONG",
    aws_session_token := "TOKLONG", expire := 22600,
    source_profile := "base", region := some "eu-west-1" }

/-- Concrete cached long token whose `source_profile` is `old`, with a
far-future expiry. -/
def ltOld : LongToken :=
  { ltBase with source_profile := "old", expire := 999999 }

/-- Concrete cached short token scoped to profile `dev`, expiring past
`envDev`'s clock. -/
def stDev : ShortToken :=
  { aws_access_key_id := "AKIASHORT", aws_secret_access_key := "SECSHORT",
    aws_session_token := "TOKSHORT", expire := 2210,
    profile := some "dev", region := some "eu-west-1" }

/-- Concrete cached short token scoped to a different profile. -/
def stOther : ShortToken :=
  { stDev with profile := some "other" }

/-- Handler freshly constructed for profile `dev` with no cached
tokens. -/
def handlerFresh : Handler :=
  { profile := some "dev", region := none,
    long_session_token := none, short_session_token := none,
    disk_cache_disable := false,
    long_session_duration := 43200, short_session_duration := 900,
    session := none }

/-- Handler for profile `dev` with both cached tokens valid and
matching. -/
def handlerWarm : Handler :=
  { handlerFresh with
    long_session_token := some ltBase
    short_session_token := some stDev }

/-- Handler whose cached short token is scoped to another profile. -/
def handlerProfileSwitch : Handler :=
  { handlerFresh with
    long_session_token := some ltBase
    short_session_token := some stOther }

/-- Handler whose cached long token carries a stale `source_profile`. -/
def handlerSourceSwitch : Handler :=
  { handlerFresh with
    long_session_token := some ltOld
    short_session_token := some stDev }

/-- Handler constructed with `profile=None` and no region. -/
def handlerUnset : Handler :=
  { handlerFresh with profile := none }

theorem configLookup_fst_profile (store : Option String → ScopedConfig) (h : Handler) :
    (configLookup store h).1.profile = h.profile := by
  simp only [configLookup]
  split <;> rfl

theorem configLookup_fst_long (store : Option String → ScopedConfig) (h : Handler) :
    (configLookup store h).1.long_session_token = h.long_session_token := by
  simp only [configLookup]
  split <;> rfl

theorem configLookup_fst_short (store : Option String → ScopedConfig) (h : Handler) :
    (configLookup store h).1.short_session_token = h.short_session_token := by
  simp only [configLookup]
  split <;> rfl

theorem configLookup_fst_disk (store : Option String → ScopedConfig) (h : Handler) :
    (configLookup store h).1.disk_cache_disable = h.disk_cache_disable := by
  simp only [configLookup]
  split <;> rfl

theorem configLookup_snd (store : Option String → ScopedConfig) (h : Handler) :
    (configLookup store h).2 = store h.profile := by
  simp only [configLookup]
  split <;> rfl

theorem getSessionCore_role (env : Env) (h : Handler) (a m sp : String)
    (ha : (env.configStore h.profile).role_arn = some a)
    (hm : (env.configStore h.profile).mfa_serial = some m)
    (hs : (env.configStore h.profile).source_profile = some sp) :
    getSessionCore env h = rolePathCall env (configLookup env.configStore h).1 a m sp := by
  simp only [getSessionCore, configLookup_snd, ha, hm, hs]

theorem getSessionCore_default (env : Env) (h : Handler)
    (hreq : roleAssumptionRequired (env.configStore h.profile) = false) :
    getSessionCore env h = defaultPathCall (configLookup env.configStore h).1 := by
  simp only [getSessionCore, configLookup_snd]
  rcases hra : (env.configStore h.profile).role_arn with _ | a <;>
    rcases hrm : (env.configStore h.profile).mfa_serial with _ | m <;>
      rcases hrs : (env.configStore h.profile).source_profile with _ | sp <;>
        first
          | rfl
          | simp [roleAssumptionRequired, hra, hrm, hrs] at hreq

theorem validateLong_none (cs : String) (nm : Int) (short : Option ShortToken) :
    validateLong cs nm none short = (none, short, false) := rfl

theorem validateLong_expired (cs : String) (nm : Int) (lt : LongToken)
    (short : Option ShortToken) (hexp : lt.expire ≤ nm) :
    validateLong cs nm (some lt) short = (none, none, true) := by
  simp [validateLong, hexp]

theorem validateLong_mismatch (cs : String) (nm : Int) (lt : LongToken)
    (short : Option ShortToken) (hexp : ¬ lt.expire ≤ nm) (hsp : lt.source_profile ≠ cs) :
    validateLong cs nm (some lt) short = (none, none, false) := by
  simp [validateLong, hexp, hsp]

theorem validateLong_valid (cs : String) (nm : Int) (lt : LongToken)
    (short : Option ShortToken) (hexp : ¬ lt.expire ≤ nm) (hsp : lt.source_profile = cs) :
    validateLong cs nm (some lt) short = (some lt, short, false) := by
  simp [validateLong, hexp, hsp]

theorem validateShort_none (p : Option String) (nm : Int) :
    validateShort p nm none = none := rfl

theorem validateShort_valid (p : Option String) (nm : Int) (st : ShortToken)
    (hexp : ¬ st.expire ≤ nm) (hp : st.profile = p) :
    validateShort p nm (some st) = some st := by
  simp [validateShort, hexp, hp]

theorem validateShort_profile_switch (p : Option String) (nm : Int) (st : ShortToken)
    (hp : st.profile ≠ p) :
    validateShort p nm (some st) = none := by
  by_cases hexp : st.expire ≤ nm <;> simp [validateShort, hexp, hp]

theorem refreshLongStep_some (env : Env) (m sp : String) (h : Handler) (lt : LongToken) :
    refreshLongStep env m sp h (some lt) = (lt, 0) := rfl

theorem refreshShortStep_some (env : Env) (a : String) (h : Handler) (long : LongToken)
    (st : ShortToken) :
    refreshShortStep env a h long (some st) = (st, false) := rfl

theorem roleRequired_iff (cfg : ScopedConfig) :
    roleAssumptionRequired cfg = true ↔
      (∃ a, cfg.role_arn = some a) ∧ (∃ m, cfg.mfa_serial = some m) ∧
      (∃ sp, cfg.source_profile = some sp) := by
  simp [roleAssumptionRequired, Option.isSome_iff_exists, and_assoc]

theorem rolePath_no_refresh (env : Env) (h : Handler) (a m sp : String)
    (lt : LongToken) (st : ShortToken)
    (hl : h.long_session_token = some lt)
    (hs : h.short_session_token = some st)
    (hle : ¬ lt.expire ≤ env.now + 10)
    (hlsp : lt.source_profile = sp)
    (hse : ¬ st.expire ≤ env.now + 10)
    (hsp : st.profile = h.profile) :
    (rolePathCall env h a m sp).mfaPrompts = 0 ∧
    (rolePathCall env h a m sp).getSessionTokenCalls = 0 ∧
    (rolePathCall env h a m sp).assumeRoleCalls = 0 ∧
    (rolePathCall env h a m sp).cacheWrite = none ∧
    (rolePathCall env h a m sp).handler.profile = h.profile ∧
    (rolePathCall env h a m sp).handler.long_session_token = some lt ∧
    (rolePathCall env h a m sp).handler.short_session_token = some st := by
  simp [rolePathCall, hl, hs, validateLong_valid _ _ _ _ hle hlsp,
    validateShort_valid _ _ _ hse hsp, refreshLongStep_some, refreshShortStep_some]

theorem rolePath_long_refresh_forces_short (env : Env) (h : Handler) (a m sp : String)
    (hc : h.long_session_token = none → h.short_session_token = none)
    (hrefresh : 0 < (rolePathCall env h a m sp).getSessionTokenCalls) :
    0 < (rolePathCall env h a m sp).assumeRoleCalls := by
  rcases hl : h.long_session_token with _ | lt
  · have hsnone := hc hl
    simp [rolePathCall, hl, hsnone, validateLong_none, validateShort_none, refreshShortStep]
  · by_cases hexp : lt.expire ≤ env.now + 10
    · simp [rolePathCall, hl, validateLong_expired _ _ _ _ hexp, validateShort_none,
        refreshShortStep]
    · by_cases hmm : lt.source_profile = sp
      · exfalso
        simp [rolePathCall, hl, validateLong_valid _ _ _ _ hexp hmm,
          refreshLongStep_some] at hrefresh
      · simp [rolePathCall, hl, validateLong_mismatch _ _ _ _ hexp hmm, validateShort_none,
          refreshShortStep]

theorem rolePath_source_switch (env : Env) (h : Handler) (a m sp : String) (lt : LongToken)
    (hl : h.long_session_token = some lt)
    (hmm : lt.source_profile ≠ sp) :
    (rolePathCall env h a m sp).mfaPrompts = 1 ∧
    (rolePathCall env h a m sp).getSessionTokenCalls = 1 ∧
    (rolePathCall env h a m sp).assumeRoleCalls = 1 := by
  by_cases hexp : lt.expire ≤ env.now + 10
  · simp [rolePathCall, hl, validateLong_expired _ _ _ _ hexp, validateShort_none,
      refreshLongStep, refreshShortStep]
  · simp [rolePathCall, hl, validateLong_mismatch _ _ _ _ hexp hmm, validateShort_none,
      refreshLongStep, refreshShortStep]

theorem rolePath_profile_switch_only_short (env : Env) (h : Handler) (a m sp : String)
    (lt : LongToken) (st : ShortToken)
    (hl : h.long_session_token = some lt)
    (hs : h.short_session_token = some st)
    (hle : ¬ lt.expire ≤ env.now + 10)
    (hlsp : lt.source_profile = sp)
    (hstp : st.profile ≠ h.profile) :
    (rolePathCall env h a m sp).handler.long_session_token = some lt ∧
    (rolePathCall env h a m sp).assumeRoleCalls = 1 ∧
    (rolePathCall env h a m sp).mfaPrompts = 0 := by
  simp [rolePathCall, hl, hs, validateLong_valid _ _ _ _ hle hlsp,
    validateShort_profile_switch _ _ _ hstp, refreshLongStep_some, refreshShortStep]

theorem rolePath_session_shape (env : Env) (h : Handler) (a m sp : String) :
    ∃ x y z, (rolePathCall env h a m sp).handler.session =
      some (Session.fromShortToken x y z h.region) :=
  ⟨_, _, _, rfl⟩

theorem getSessionCore_preserves_coupling (env : Env) (h : Handler)
    (hc : h.long_session_token = none → h.short_session_token = none) :
    (getSessionCore env h).handler.long_session_token = none →
    (getSessionCore env h).handler.short_session_token = none := by
  by_cases hreq : roleAssumptionRequired (env.configStore h.profile) = true
  · obtain ⟨⟨a, ha⟩, ⟨m, hm⟩, ⟨sp, hsp⟩⟩ := (roleRequired_iff _).mp hreq
    rw [getSessionCore_role env h a m sp ha hm hsp]
    intro hlong
    exfalso
    simp [rolePathCall] at hlong
  · rw [getSessionCore_default env h (by simpa using hreq)]
    simp only [defaultPathCall, configLookup_fst_long, configLookup_fst_short]
    exact hc

/-- Decoding inverts encoding for long tokens. -/
theorem decodeLong_encodeLong (t : LongToken) : decodeLong (encodeLong t) = some t := by
  obtain ⟨ak, sk, tk, ex, sp, rg⟩ := t
  cases rg <;> rfl

/-- Decoding inverts encoding for short tokens. -/
theorem decodeShort_encodeShort (t : ShortToken) : decodeShort (encodeShort t) = some t := by
  obtain ⟨ak, sk, tk, ex, pf, rg⟩ := t
  cases pf <;> cases rg <;> rfl

/-- A null cache field decodes to an absent long token. -/
theorem decodeLong_null : decodeLong Json.null = none := rfl

/-- A null cache field decodes to an absent short token. -/
theorem decodeShort_null : decodeShort Json.null = none := rfl

/-- On the role path, the cache write happens exactly when a token was
reissued, and its content is one overwrite of both final token fields;
`hc` is the reachable-state coupling invariant (no short token cached
without its parent long token), `hd` says disk caching is enabled. -/
theorem rolePath_write_iff (env : Env) (h : Handler) (a m sp : String)
    (hc : h.long_session_token = none → h.short_session_token = none)
    (hd : h.disk_cache_disable = false) :
    ((rolePathCall env h a m sp).cacheWrite.isSome = true ↔
      0 < (rolePathCall env h a m sp).getSessionTokenCalls +
          (rolePathCall env h a m sp).assumeRoleCalls) ∧
    ∀ j, (rolePathCall env h a m sp).cacheWrite = some j →
      j = writeCacheJson (rolePathCall env h a m sp).handler.long_session_token
            (rolePathCall env h a m sp).handler.short_session_token := by
  rcases hl : h.long_session_token with _ | lt
  · have hsnone := hc hl
    simp [rolePathCall, hl, hsnone, validateLong_none, validateShort_none,
      refreshShortStep, refreshLongStep, writeCacheFileContent, hd]
  · by_cases hexp : lt.expire ≤ env.now + 10
    · simp [rolePathCall, hl, validateLong_expired _ _ _ _ hexp, validateShort_none,
        refreshShortStep, refreshLongStep, writeCacheFileContent, hd]
    · by_cases hmm : lt.source_profile = sp
      · rcases hs : h.short_session_token with _ | st
        · simp [rolePathCall, hl, hs, validateLong_valid _ _ _ _ hexp hmm, validateShort_none,
            refreshLongStep_some, refreshShortStep, writeCacheFileContent, hd]
        · by_cases hsv : st.expire ≤ env.now + 10
          · simp [rolePathCall, hl, hs, validateLong_valid _ _ _ _ hexp hmm,
              validateShort, hsv, refreshLongStep_some, refreshShortStep,
              writeCacheFileContent, hd]
          · by_cases hsp2 : st.profile = h.profile
            · simp [rolePathCall, hl, hs, validateLong_valid _ _ _ _ hexp hmm,
                validateShort_valid _ _ _ hsv hsp2, refreshLongStep_some, refreshShortStep_some,
                writeCacheFileContent, hd]
            · simp [rolePathCall, hl, hs, validateLong_valid _ _ _ _ hexp hmm,
                validateShort_profile_switch _ _ _ hsp2, refreshLongStep_some, refreshShortStep,
                writeCacheFileContent, hd]
      · simp [rolePathCall, hl, validateLong_mismatch _ _ _ _ hexp hmm, validateShort_none,
          refreshShortStep, refreshLongStep, writeCacheFileContent, hd]

/-- C1: on the role-assumption path, if a `getSession()` call refreshes
the long token (performs a `get_session_token` call) then it also
performs a role-assumption call in the same call, so no previously
cached short token remains in use after its parent long token is
re-obtained.  The hypothesis `hc` is the coupling invariant of every
state the handler itself can reach (established at construction and
preserved by every call, see `getSessionCore_preserves_coupling`). -/
theorem c1_long_refresh_forces_short_refresh (env : Env) (h : Handler)
    (hreq : roleAssumptionRequired (env.configStore h.profile) = true)
    (hc : h.long_session_token = none → h.short_session_token = none)
    (hrefresh : 0 < (getSessionCore env h).getSessionTokenCalls) :
    0 < (getSessionCore env h).assumeRoleCalls := by
  obtain ⟨⟨a, ha⟩, ⟨m, hm⟩, ⟨sp, hsp⟩⟩ := (roleRequired_iff _).mp hreq
  rw [getSessionCore_role env h a m sp ha hm hsp] at hrefresh ⊢
  exact rolePath_long_refresh_forces_short env _ a m sp
    (by rw [configLookup_fst_long, configLookup_fst_short]; exact hc) hrefresh

/-- Witness for C1: a fresh handler refreshes the long token and indeed
also assumes the role. -/
theorem c1_witness : 0 < (getSessionCore envDev handlerFresh).assumeRoleCalls :=
  c1_long_refresh_forces_short_refresh envDev handlerFresh rfl (fun _ => rfl) (by decide)

/-- C2: on the role-assumption path with disk caching enabled, the cache
file is written during a `getSession()` call iff at least one token was
(re)issued in that call, and any write is one full overwrite holding
both final token fields together. -/
theorem c2_cache_write_iff_token_reissued (env : Env) (h : Handler)
    (hreq : roleAssumptionRequired (env.configStore h.profile) = true)
    (hc : h.long_session_token = none → h.short_session_token = none)
    (hd : h.disk_cache_disable = false) :
    ((getSessionCore env h).cacheWrite.isSome = true ↔
      0 < (getSessionCore env h).getSessionTokenCalls +
          (getSessionCore env h).assumeRoleCalls) ∧
    ∀ j, (getSessionCore env h).cacheWrite = some j →
      j = writeCacheJson (getSessionCore env h).handler.long_session_token
            (getSessionCore env h).handler.short_session_token := by
  obtain ⟨⟨a, ha⟩, ⟨m, hm⟩, ⟨sp, hsp⟩⟩ := (roleRequired_iff _).mp hreq
  rw [getSessionCore_role env h a m sp ha hm hsp]
  exact rolePath_write_iff env _ a m sp
    (by rw [configLookup_fst_long, configLookup_fst_short]; exact hc)
    (by rw [configLookup_fst_disk]; exact hd)

/-- Witness for C2: a fresh handler reissues both tokens and writes the
cache file. -/
theorem c2_witness : (getSessionCore envDev handlerFresh).cacheWrite.isSome = true :=
  (c2_cache_write_iff_token_reissued envDev handlerFresh rfl (fun _ => rfl) rfl).1.mpr
    (by decide)

/-- C3 counterexample: a cache file that exists and passes the access
check but holds unparseable content makes the constructor's `json.load`
raise, so construction fails instead of recovering. -/
theorem c3_counterexample_corrupt_cache_fails :
    exceptOk (loadCacheTokens CacheFileState.corrupt) = false := rfl

/-- C3 as amended: a missing or inaccessible cache file is downgraded to
"no cached token" and construction succeeds, a JSON-object cache file of
any shape also never fails construction (each key present contributes
its raw value, which only causes errors at first use), and a string
containing neither token key passes both membership tests negatively;
but construction does fail on unparseable (corrupt) content, on
parseable non-container content (`null`, a number — `TypeError` from
`'long_session_token' in cache_tokens`), and on a string containing a
token key as a substring (`TypeError` at the string indexing). -/
theorem c3_amended_preload_outcomes :
    loadCacheTokens CacheFileState.absent = Except.ok (none, none) ∧
    loadCacheTokens CacheFileState.inaccessible = Except.ok (none, none) ∧
    (∀ fields, exceptOk (loadCacheTokens (CacheFileState.content (Json.obj fields))) = true) ∧
    exceptOk (loadCacheTokens CacheFileState.corrupt) = false ∧
    exceptOk (loadCacheTokens (CacheFileState.content Json.null)) = false ∧
    (∀ n, exceptOk (loadCacheTokens (CacheFileState.content (Json.int n))) = false) ∧
    (∀ s, strContains s "long_session_token" = false →
      strContains s "short_session_token" = false →
      loadCacheTokens (CacheFileState.content (Json.str s)) = Except.ok (none, none)) ∧
    (∀ s, strContains s "long_session_token" = true →
      exceptOk (loadCacheTokens (CacheFileState.content (Json.str s))) = false) := by
  refine ⟨rfl, rfl, fun fields => rfl, rfl, rfl, fun n => rfl, ?_, ?_⟩
  · intro s h1 h2
    simp [loadCacheTokens, loadCacheRaw, h1, h2]
  · intro s h1
    simp [loadCacheTokens, loadCacheRaw, exceptOk, h1]

/-- Witness for C3: a missing cache file loads as two absent tokens, and
a string cache file containing neither token key also loads as two
absent tokens. -/
theorem c3_witness :
    loadCacheTokens CacheFileState.absent = Except.ok (none, none) ∧
    loadCacheTokens (CacheFileState.content (Json.str "hello")) = Except.ok (none, none) :=
  ⟨c3_amended_preload_outcomes.1,
   c3_amended_preload_outcomes.2.2.2.2.2.2.1 "hello" (by decide) (by decide)⟩

/-- C8: tokens written to the cache store by the handler and reloaded by
a fresh handler instance's preload block reproduce exactly the written
in-memory token structures. -/
theorem c8_cache_roundtrip (l : Option LongToken) (s : Option ShortToken) :
    loadCacheTokens (CacheFileState.content (writeCacheJson l s)) = Except.ok (l, s) := by
  cases l <;> cases s <;>
    simp [loadCacheTokens, loadCacheRaw, writeCacheJson, assocFind,
      encodeOptLong, encodeOptShort, decodeLong_encodeLong, decodeShort_encodeShort,
      decodeLong_null, decodeShort_null]

/-- C9 counterexample: with neither profile nor region set, the public
`get_session()` does not fail; it runs `_get_session` directly (the
missing-selector guard exists only in `client` and `resource`). -/
theorem c9_counterexample_get_session_unchecked :
    exceptOk (get_session envDev handlerUnset) = true := rfl

/-- C9 as amended: when neither profile nor region is set, `client()`
and `resource()` fail with the missing-selector error, while
`get_session()` performs no such check and proceeds. -/
theorem c9_amended_guard_on_wrappers (env : Env) (h : Handler)
    (hp : optFalsy h.profile = true) (hr : optFalsy h.region = true) :
    (∃ msg, client env h = Except.error msg) ∧
    (∃ msg, resource env h = Except.error msg) ∧
    exceptOk (get_session env h) = true := by
  refine ⟨⟨"ERROR: missing region and profile", ?_⟩,
          ⟨"ERROR: missing region and profile", ?_⟩, rfl⟩
  · simp [client, hp, hr]
  · simp [resource, hp, hr]

/-- Witness for C9: a handler with both selectors unset. -/
theorem c9_witness :
    (∃ msg, client envDev handlerUnset = Except.error msg) ∧
    (∃ msg, resource envDev handlerUnset = Except.error msg) ∧
    exceptOk (get_session envDev handlerUnset) = true :=
  c9_amended_guard_on_wrappers envDev handlerUnset rfl rfl

/-- C10: `set(profile, region)` leaves a selector unchanged when the
corresponding argument is falsy (`None` or `""`), and replaces it with
the argument exactly when the argument is truthy — so a selector can
never be cleared back to unset through `set`. -/
theorem c10_set_falsy_noop (h : Handler) (p r : Option String) :
    (optFalsy p = true → (setSelectors h p r).profile = h.profile) ∧
    (optFalsy r = true → (setSelectors h p r).region = h.region) ∧
    (optFalsy p = false → (setSelectors h p r).profile = p) ∧
    (optFalsy r = false → (setSelectors h p r).region = r) := by
  refine ⟨?_, ?_, ?_, ?_⟩ <;> intro hx <;>
    simp only [setSelectors, hx, if_true, if_false, Bool.false_eq_true] <;>
      split <;> rfl

/-- Witness for C10: a `None` profile argument leaves the profile
selector unchanged while a truthy region argument replaces the region. -/
theorem c10_witness :
    (setSelectors handlerFresh none (some "eu-west-1")).profile = handlerFresh.profile ∧
    (setSelectors handlerFresh none (some "eu-west-1")).region = some "eu-west-1" :=
  ⟨(c10_set_falsy_noop handlerFresh none (some "eu-west-1")).1 rfl,
   (c10_set_falsy_noop handlerFresh none (some "eu-west-1")).2.2.2 rfl⟩

/-- C4: the role-assumption machinery runs iff the freshly resolved
config carries all three of `role_arn`, `mfa_serial` and
`source_profile`; lacking any of the three, the session is built from
the default credential chain of the selected profile with no MFA
prompt, no token-service call and no cache write, while with all three
present the session is built from the short token's credentials. -/
theorem c4_role_branch_iff_config_complete (env : Env) (h : Handler) :
    (roleAssumptionRequired (env.configStore h.profile) = false →
      (getSessionCore env h).handler.session = some (Session.defaultChain h.profile) ∧
      (getSessionCore env h).mfaPrompts = 0 ∧
      (getSessionCore env h).getSessionTokenCalls = 0 ∧
      (getSessionCore env h).assumeRoleCalls = 0 ∧
      (getSessionCore env h).cacheWrite = none) ∧
    (roleAssumptionRequired (env.configStore h.profile) = true →
      ∃ x y z rg, (getSessionCore env h).handler.session =
        some (Session.fromShortToken x y z rg)) := by
  constructor
  · intro hreq
    rw [getSessionCore_default env h hreq]
    refine ⟨?_, rfl, rfl, rfl, rfl⟩
    simp [defaultPathCall, configLookup_fst_profile]
  · intro hreq
    obtain ⟨⟨a, ha⟩, ⟨m, hm⟩, ⟨sp, hsp⟩⟩ := (roleRequired_iff _).mp hreq
    rw [getSessionCore_role env h a m sp ha hm hsp]
    obtain ⟨x, y, z, hses⟩ := rolePath_session_shape env _ a m sp
    exact ⟨x, y, z, _, hses⟩

/-- Witness for C4: a config without the role keys yields the default
chain with zero prompts; the full `dev` config yields a short-token
session. -/
theorem c4_witness :
    ((getSessionCore envPlain handlerFresh).handler.session =
        some (Session.defaultChain handlerFresh.profile) ∧
      (getSessionCore envPlain handlerFresh).mfaPrompts = 0) ∧
    ∃ x y z rg, (getSessionCore envDev handlerFresh).handler.session =
      some (Session.fromShortToken x y z rg) :=
  ⟨⟨((c4_role_branch_iff_config_complete envPlain handlerFresh).1 rfl).1,
    ((c4_role_branch_iff_config_complete envPlain handlerFresh).1 rfl).2.1⟩,
   (c4_role_branch_iff_config_complete envDev handlerFresh).2 rfl⟩

/-- C5: with a cached valid long token and a cached valid short token
matching the current selectors, the second of two consecutive
`getSession()` calls (same clock, same profile) performs zero MFA
prompts, zero token-service calls and zero cache writes. -/
theorem c5_idempotent_second_call (env : Env) (h : Handler)
    (lt : LongToken) (st : ShortToken)
    (hreq : roleAssumptionRequired (env.configStore h.profile) = true)
    (hl : h.long_session_token = some lt)
    (hs : h.short_session_token = some st)
    (hle : env.now + 10 < lt.expire)
    (hlsp : (env.configStore h.profile).source_profile = some lt.source_profile)
    (hse : env.now + 10 < st.expire)
    (hsp : st.profile = h.profile) :
    (getSessionCore env (getSessionCore env h).handler).mfaPrompts = 0 ∧
    (getSessionCore env (getSessionCore env h).handler).getSessionTokenCalls = 0 ∧
    (getSessionCore env (getSessionCore env h).handler).assumeRoleCalls = 0 ∧
    (getSessionCore env (getSessionCore env h).handler).cacheWrite = none := by
  obtain ⟨⟨a, ha⟩, ⟨m, hm⟩, _⟩ := (roleRequired_iff _).mp hreq
  have h1eq := getSessionCore_role env h a m lt.source_profile ha hm hlsp
  have f1 : (configLookup env.configStore h).1.profile = h.profile :=
    configLookup_fst_profile _ _
  have f2 : (configLookup env.configStore h).1.long_session_token = some lt := by
    rw [configLookup_fst_long, hl]
  have f3 : (configLookup env.configStore h).1.short_session_token = some st := by
    rw [configLookup_fst_short, hs]
  obtain ⟨_, _, _, _, g1, g2, g3⟩ :=
    rolePath_no_refresh env (configLookup env.configStore h).1 a m
      lt.source_profile lt st f2 f3 (not_le.mpr hle) rfl (not_le.mpr hse)
      (by rw [f1]; exact hsp)
  rw [h1eq]
  have hprof : (rolePathCall env (configLookup env.configStore h).1 a m
      lt.source_profile).handler.profile = h.profile := by rw [g1, f1]
  have hstore : env.configStore (rolePathCall env (configLookup env.configStore h).1 a m
      lt.source_profile).handler.profile = env.configStore h.profile := by rw [hprof]
  have h2eq := getSessionCore_role env
    (rolePathCall env (configLookup env.configStore h).1 a m lt.source_profile).handler
    a m lt.source_profile
    (by rw [hstore]; exact ha) (by rw [hstore]; exact hm) (by rw [hstore]; exact hlsp)
  rw [h2eq]
  have k1 : (configLookup env.configStore
      (rolePathCall env (configLookup env.configStore h).1 a m
        lt.source_profile).handler).1.long_session_token = some lt := by
    rw [configLookup_fst_long]; exact g2
  have k2 : (configLookup env.configStore
      (rolePathCall env (configLookup env.configStore h).1 a m
        lt.source_profile).handler).1.short_session_token = some st := by
    rw [configLookup_fst_short]; exact g3
  have k3 : (configLookup env.configStore
      (rolePathCall env (configLookup env.configStore h).1 a m
        lt.source_profile).handler).1.profile = h.profile := by
    rw [configLookup_fst_profile]; exact hprof
  obtain ⟨r1, r2, r3, r4, _, _, _⟩ :=
    rolePath_no_refresh env _ a m lt.source_profile lt st k1 k2
      (not_le.mpr hle) rfl (not_le.mpr hse) (by rw [k3]; exact hsp)
  exact ⟨r1, r2, r3, r4⟩

/-- Witness for C5: the warm handler's second call assumes no role and
writes no cache. -/
theorem c5_witness :
    (getSessionCore envDev (getSessionCore envDev handlerWarm).handler).assumeRoleCalls = 0 ∧
    (getSessionCore envDev (getSessionCore envDev handlerWarm).handler).cacheWrite = none :=
  ⟨(c5_idempotent_second_call envDev handlerWarm ltBase stDev rfl rfl rfl (by decide) rfl
      (by decide) rfl).2.2.1,
   (c5_idempotent_second_call envDev handlerWarm ltBase stDev rfl rfl rfl (by decide) rfl
      (by decide) rfl).2.2.2⟩

/-- C6: with a valid long token (unexpired at `now + 10s`, matching
`source_profile`) and a short token scoped to a different profile,
`getSession()` keeps the long token unchanged, performs exactly one
role-assumption call, and performs zero MFA prompts. -/
theorem c6_profile_switch_short_only (env : Env) (h : Handler)
    (lt : LongToken) (st : ShortToken)
    (hreq : roleAssumptionRequired (env.configStore h.profile) = true)
    (hl : h.long_session_token = some lt)
    (hs : h.short_session_token = some st)
    (hle : env.now + 10 < lt.expire)
    (hlsp : (env.configStore h.profile).source_profile = some lt.source_profile)
    (hstp : st.profile ≠ h.profile) :
    (getSessionCore env h).handler.long_session_token = some lt ∧
    (getSessionCore env h).assumeRoleCalls = 1 ∧
    (getSessionCore env h).mfaPrompts = 0 := by
  obtain ⟨⟨a, ha⟩, ⟨m, hm⟩, _⟩ := (roleRequired_iff _).mp hreq
  rw [getSessionCore_role env h a m lt.source_profile ha hm hlsp]
  exact rolePath_profile_switch_only_short env _ a m lt.source_profile lt st
    (by rw [configLookup_fst_long]; exact hl)
    (by rw [configLookup_fst_short]; exact hs)
    (not_le.mpr hle) rfl
    (by rw [configLookup_fst_profile]; exact hstp)

/-- Witness for C6: a handler whose short token is scoped to `other`
while the selector is `dev`. -/
theorem c6_witness :
    (getSessionCore envDev handlerProfileSwitch).handler.long_session_token = some ltBase ∧
    (getSessionCore envDev handlerProfileSwitch).assumeRoleCalls = 1 ∧
    (getSessionCore envDev handlerProfileSwitch).mfaPrompts = 0 :=
  c6_profile_switch_short_only envDev handlerProfileSwitch ltBase stOther rfl rfl rfl
    (by decide) rfl (by decide)

/-- C7: with a cached long token whose `source_profile` differs from the
resolved config's `source_profile`, the long-token validation step
invalidates both tokens — with no hypothesis on the long token's
expiry, so in particular for expiries arbitrarily far past `now + 10s` —
and the call re-obtains both: one MFA prompt and one role-assumption
call. -/
theorem c7_source_profile_switch_invalidates_both (env : Env) (h : Handler)
    (lt : LongToken) (sp : String)
    (hreq : roleAssumptionRequired (env.configStore h.profile) = true)
    (hl : h.long_session_token = some lt)
    (hsp : (env.configStore h.profile).source_profile = some sp)
    (hmm : lt.source_profile ≠ sp) :
    (validateLong sp (env.now + 10) h.long_session_token h.short_session_token).1 = none ∧
    (validateLong sp (env.now + 10) h.long_session_token h.short_session_token).2.1 = none ∧
    (getSessionCore env h).mfaPrompts = 1 ∧
    (getSessionCore env h).assumeRoleCalls = 1 := by
  obtain ⟨⟨a, ha⟩, ⟨m, hm⟩, _⟩ := (roleRequired_iff _).mp hreq
  have hval : (validateLong sp (env.now + 10) h.long_session_token
        h.short_session_token).1 = none ∧
      (validateLong sp (env.now + 10) h.long_session_token
        h.short_session_token).2.1 = none := by
    by_cases hexp : lt.expire ≤ env.now + 10
    · rw [hl, validateLong_expired _ _ _ _ hexp]; exact ⟨rfl, rfl⟩
    · rw [hl, validateLong_mismatch _ _ _ _ hexp hmm]; exact ⟨rfl, rfl⟩
  have hcall := rolePath_source_switch env (configLookup env.configStore h).1 a m sp lt
    (by rw [configLookup_fst_long]; exact hl) hmm
  rw [getSessionCore_role env h a m sp ha hm hsp]
  exact ⟨hval.1, hval.2, hcall.1, hcall.2.2⟩

/-- Witness for C7: a long token carrying `source_profile = "old"` when
the config resolves `source_profile = "base"`, with a far-future
expiry. -/
theorem c7_witness :
    (getSessionCore envDev handlerSourceSwitch).mfaPrompts = 1 ∧
    (getSessionCore envDev handlerSourceSwitch).assumeRoleCalls = 1 :=
  ⟨(c7_source_profile_switch_invalidates_both envDev handlerSourceSwitch ltOld "base"
      rfl rfl rfl (by decide)).2.2.1,
   (c7_source_profile_switch_invalidates_both envDev handlerSourceSwitch ltOld "base"
      rfl rfl rfl (by decide)).2.2.2⟩
